import Mathlib

/-!
Shallow embedding of src/app.py, the tradfri HTTP facade.  The embedded
parts are: the description builder (fetch_description, app.py lines
81-154), the TTL cache over the module-level cell CACHED_RESPONSE /
LAST_FETCH (get_description, invalidate_description, lines 157-177), and
the command dispatcher routes (switchOffBulb, switchOnBulb, setDimmerBulb,
switchOffRoom, switchOnRoom, setDimmerRoom, selectAmbianceRoom, lines
187-273).  Gateway I/O is abstracted into explicit environments; Python
exceptions become an Except error monad; wall-clock readings become
rational-number parameters.
-/

namespace Tradfri

/-- Failure of a pytradfri gateway call, carrying a distinguishing code so
that exact propagation of a given failure can be stated. -/
structure GatewayError where
  code : Nat
  deriving DecidableEq, Repr

/-- Python-level failures escaping the embedded functions: a propagated
gateway error, the AttributeError raised by attribute access on None, and
the TypeError raised by arithmetic on None. -/
inductive PyError where
  | gateway (e : GatewayError)
  | attributeError
  | typeError
  deriving DecidableEq, Repr

/-- A pytradfri device as app.py uses it: id, name, has_light_control, and
the first light's dimmer and state (meaningful only when has_light_control
is true; app.py reads them only under that test). -/
structure Device where
  id : String
  name : String
  hasLightControl : Bool
  dimmer : Nat
  state : Bool
  deriving DecidableEq, Repr

/-- A mood (ambiance) entry: integer id and name, as rendered into the
room description at app.py line 114. -/
structure Mood where
  id : Nat
  name : String
  deriving DecidableEq, Repr

/-- A pytradfri group (room): id, name and the ordered list of member
device ids. -/
structure Room where
  id : String
  name : String
  memberIds : List String
  deriving DecidableEq, Repr

/-- A bulb record of the room description, app.py lines 134-139. -/
structure Bulb where
  name : String
  dimmer : Nat
  state : Bool
  id : String
  deriving DecidableEq, Repr

/-- One room view of the description, app.py lines 102-114. -/
structure RoomDesc where
  name : String
  bulbs : List Bulb
  ambiances : List Mood
  id : String
  ambiance_active : Nat
  deriving DecidableEq, Repr

/-- The externally visible read model: the list of room views. -/
abbrev Description := List RoomDesc

/-- app.py line 92: device_index = dict(map(lambda x: (x.id, x), devices)).
Python dict construction is last-write-wins, so lookup yields the last
device in the list with a matching id. -/
def device_index (devices : List Device) : String → Option Device :=
  fun i => devices.reverse.find? (fun d => d.id == i)

/-- The bulb record appended at app.py lines 134-139. -/
def mkBulb (d : Device) : Bulb :=
  { name := d.name, dimmer := d.dimmer, state := d.state, id := d.id }

/-- The member loop of app.py lines 126-146.  Each entry of room_devices is
device_index.get(dev_id, None), i.e. a Device or None; the loop body starts
with device.has_light_control, so a None member raises AttributeError.
Light members contribute a bulb record, other members only a console table
row. -/
def buildBulbs : List (Option Device) → Except PyError (List Bulb)
  | [] => Except.ok []
  | none :: _ => Except.error PyError.attributeError
  | some d :: rest =>
    match buildBulbs rest with
    | Except.error e => Except.error e
    | Except.ok bs => Except.ok (if d.hasLightControl then mkBulb d :: bs else bs)

/-- Gateway responses consumed by fetch_description: the device listing,
the group listing, and the per-room mood queries -- api(room.mood()) and
gateway.get_moods(room.id). -/
structure FetchEnv where
  devices : List Device
  groups : List Room
  activeMood : String → Except GatewayError Mood
  moods : String → Except GatewayError (List Mood)

/-- One iteration of the room loop, app.py lines 96-152: fetch the active
mood, fetch the mood catalogue, then walk the resolved members building the
bulb list.  Any failure aborts the whole build of this room. -/
def build_room (index : String → Option Device) (env : FetchEnv) (r : Room) :
    Except PyError RoomDesc :=
  match env.activeMood r.id with
  | Except.error e => Except.error (PyError.gateway e)
  | Except.ok active =>
    match env.moods r.id with
    | Except.error e => Except.error (PyError.gateway e)
    | Except.ok ms =>
      match buildBulbs (r.memberIds.map index) with
      | Except.error e => Except.error e
      | Except.ok bs =>
        Except.ok { name := r.name, bulbs := bs, ambiances := ms,
                    id := r.id, ambiance_active := active.id }

/-- The loop over groups of app.py lines 96-152: room views accumulate in
gateway order; any room failure aborts the whole build. -/
def build_rooms (index : String → Option Device) (env : FetchEnv) :
    List Room → Except PyError (List RoomDesc)
  | [] => Except.ok []
  | r :: rest =>
    match build_room index env r with
    | Except.error e => Except.error e
    | Except.ok rd =>
      match build_rooms index env rest with
      | Except.error e => Except.error e
      | Except.ok rds => Except.ok (rd :: rds)

/-- app.py lines 81-154 (fetch_description) with gateway I/O abstracted into
the environment. -/
def fetch_description (env : FetchEnv) : Except PyError Description :=
  build_rooms (device_index env.devices) env env.groups

/-- The module-level cache cell of app.py lines 157-158: CACHED_RESPONSE
and LAST_FETCH, both initially None. -/
structure CacheState where
  cachedResponse : Option Description
  lastFetch : Option ℚ
  deriving DecidableEq

/-- The guard of app.py line 166: CACHED_RESPONSE is None or
(time.time() - LAST_FETCH) > 10.0, with Python short-circuit evaluation.
When CACHED_RESPONSE is set but LAST_FETCH is None, the subtraction raises
TypeError. -/
def staleCheck (s : CacheState) (tCheck : ℚ) : Except PyError Bool :=
  match s.cachedResponse with
  | none => Except.ok true
  | some _ =>
    match s.lastFetch with
    | none => Except.error PyError.typeError
    | some t => Except.ok (decide (tCheck - t > 10))

/-- Decidable equality on Except, needed to evaluate concrete runs. -/
instance exceptDecEq {ε α : Type} [DecidableEq ε] [DecidableEq α] :
    DecidableEq (Except ε α) := fun x y =>
  match x, y with
  | Except.ok a, Except.ok b =>
    if h : a = b then isTrue (by rw [h]) else isFalse (by intro hc; cases hc; exact h rfl)
  | Except.ok _, Except.error _ => isFalse (by intro hc; cases hc)
  | Except.error _, Except.ok _ => isFalse (by intro hc; cases hc)
  | Except.error e, Except.error f =>
    if h : e = f then isTrue (by rw [h]) else isFalse (by intro hc; cases hc; exact h rfl)

/-- Outcome of one get_description call: the cache cell afterwards, whether
fetch_description was invoked, and the returned value or escaping
exception. -/
structure GetResult where
  state : CacheState
  builderInvoked : Bool
  result : Except PyError (Option Description)
  deriving DecidableEq

/-- app.py lines 161-172 (get_description).  tCheck is the clock reading in
the guard; tStore is the clock reading stored into LAST_FETCH after a
successful fetch (line 168); fetchResult is the outcome fetch_description
would produce.  On a fetch failure nothing is assigned and the exception
propagates through the finally block to the caller. -/
def get_description (s : CacheState) (tCheck tStore : ℚ)
    (fetchResult : Except PyError Description) : GetResult :=
  match staleCheck s tCheck with
  | Except.error e => { state := s, builderInvoked := false, result := Except.error e }
  | Except.ok true =>
    match fetchResult with
    | Except.error e =>
      { state := s, builderInvoked := true, result := Except.error e }
    | Except.ok d =>
      { state := { cachedResponse := some d, lastFetch := some tStore },
        builderInvoked := true, result := Except.ok (some d) }
  | Except.ok false =>
    { state := s, builderInvoked := false, result := Except.ok s.cachedResponse }

/-- app.py lines 175-177 (invalidate_description): set CACHED_RESPONSE to
None and leave LAST_FETCH untouched. -/
def invalidate_description (s : CacheState) : CacheState :=
  { s with cachedResponse := none }

/-- Cache cells reachable from process start through get_description calls
(arbitrary clock readings and fetch outcomes) and invalidate_description
calls. -/
inductive Reachable : CacheState → Prop where
  | init : Reachable { cachedResponse := none, lastFetch := none }
  | get (s : CacheState) (tc ts : ℚ) (f : Except PyError Description) :
      Reachable s → Reachable (get_description s tc ts f).state
  | inv (s : CacheState) : Reachable s → Reachable (invalidate_description s)

/-- Observable dispatcher actions, in program order: gateway mutation
commands and cache invalidations. -/
inductive Event where
  | cmdSetState (deviceId : String) (st : Bool)
  | cmdSetDimmer (deviceId : String) (value : Nat)
  | cmdActivateMood (moodId : Nat)
  | invalidate
  deriving DecidableEq, Repr

/-- True exactly on the invalidate event. -/
def isInv : Event → Bool
  | Event.invalidate => true
  | _ => false

/-- True exactly on gateway mutation commands. -/
def isCmd : Event → Bool
  | Event.invalidate => false
  | _ => true

/-- Gateway behaviour as seen by the dispatcher routes: group resolution
(gateway.get_group plus api), device resolution (gateway.get_device or a
member command plus api), and the outcomes of set_state, set_dimmer and
activate_mood commands, keyed by the target id. -/
structure DispatchEnv where
  getGroup : String → Except GatewayError Room
  getDevice : String → Except GatewayError Device
  setState : String → Bool → Except GatewayError Unit
  setDimmer : String → Nat → Except GatewayError Unit
  activateMood : Nat → Except GatewayError Unit

/-- app.py lines 187-196, route /bulb/off/room/bulb: resolve the device,
send light_control.set_state(False), then invalidate the cache.  The room
path segment is bound but never read.  On a device without light control,
light_control is None, so the attribute access raises AttributeError.  The
result pairs the event trace with the HTTP outcome. -/
def switchOffBulb (env : DispatchEnv) (room bulb : String) :
    List Event × Except PyError String :=
  match env.getDevice bulb with
  | Except.error e => ([], Except.error (PyError.gateway e))
  | Except.ok d =>
    if d.hasLightControl then
      match env.setState d.id false with
      | Except.error e =>
        ([Event.cmdSetState d.id false], Except.error (PyError.gateway e))
      | Except.ok _ => ([Event.cmdSetState d.id false, Event.invalidate], Except.ok "")
    else ([], Except.error PyError.attributeError)

/-- app.py lines 199-208, route /bulb/on/room/bulb, same shape as
switchOffBulb with set_state(True). -/
def switchOnBulb (env : DispatchEnv) (room bulb : String) :
    List Event × Except PyError String :=
  match env.getDevice bulb with
  | Except.error e => ([], Except.error (PyError.gateway e))
  | Except.ok d =>
    if d.hasLightControl then
      match env.setState d.id true with
      | Except.error e =>
        ([Event.cmdSetState d.id true], Except.error (PyError.gateway e))
      | Except.ok _ => ([Event.cmdSetState d.id true, Event.invalidate], Except.ok "")
    else ([], Except.error PyError.attributeError)

/-- app.py lines 211-220, route /bulb/dimmer/room/bulb/value, same shape
with set_dimmer(value). -/
def setDimmerBulb (env : DispatchEnv) (room bulb : String) (value : Nat) :
    List Event × Except PyError String :=
  match env.getDevice bulb with
  | Except.error e => ([], Except.error (PyError.gateway e))
  | Except.ok d =>
    if d.hasLightControl then
      match env.setDimmer d.id value with
      | Except.error e =>
        ([Event.cmdSetDimmer d.id value], Except.error (PyError.gateway e))
      | Except.ok _ => ([Event.cmdSetDimmer d.id value, Event.invalidate], Except.ok "")
    else ([], Except.error PyError.attributeError)

/-- The member loop shared by the three room routes (app.py lines 229-232,
243-246, 257-260): resolve each member via api(member_command); if it has
light control, call the bulb-route function op on member.id.  Any exception
-- from resolution or from op -- propagates and aborts the loop. -/
def roomLoop (env : DispatchEnv) (op : String → List Event × Except PyError String) :
    List String → List Event × Except PyError Unit
  | [] => ([], Except.ok ())
  | i :: rest =>
    match env.getDevice i with
    | Except.error e => ([], Except.error (PyError.gateway e))
    | Except.ok member =>
      if member.hasLightControl then
        match op member.id with
        | (evs0, Except.error e) => (evs0, Except.error e)
        | (evs0, Except.ok _) =>
          match roomLoop env op rest with
          | (evs2, r) => (evs0 ++ evs2, r)
      else roomLoop env op rest

/-- app.py lines 223-234, route /room/off/room: resolve the group, run the
member loop calling switchOffBulb on each light-capable member, then
invalidate the cache once more and return the empty body. -/
def switchOffRoom (env : DispatchEnv) (room : String) :
    List Event × Except PyError String :=
  match env.getGroup room with
  | Except.error e => ([], Except.error (PyError.gateway e))
  | Except.ok grp =>
    match roomLoop env (fun i => switchOffBulb env room i) grp.memberIds with
    | (evs, Except.error e) => (evs, Except.error e)
    | (evs, Except.ok _) => (evs ++ [Event.invalidate], Except.ok "")

/-- app.py lines 237-248, route /room/on/room, same shape with
switchOnBulb. -/
def switchOnRoom (env : DispatchEnv) (room : String) :
    List Event × Except PyError String :=
  match env.getGroup room with
  | Except.error e => ([], Except.error (PyError.gateway e))
  | Except.ok grp =>
    match roomLoop env (fun i => switchOnBulb env room i) grp.memberIds with
    | (evs, Except.error e) => (evs, Except.error e)
    | (evs, Except.ok _) => (evs ++ [Event.invalidate], Except.ok "")

/-- app.py lines 251-262, route /room/dimmer/room/value, same shape with
setDimmerBulb. -/
def setDimmerRoom (env : DispatchEnv) (room : String) (value : Nat) :
    List Event × Except PyError String :=
  match env.getGroup room with
  | Except.error e => ([], Except.error (PyError.gateway e))
  | Except.ok grp =>
    match roomLoop env (fun i => setDimmerBulb env room i value) grp.memberIds with
    | (evs, Except.error e) => (evs, Except.error e)
    | (evs, Except.ok _) => (evs ++ [Event.invalidate], Except.ok "")

/-- app.py lines 265-273, route /room/ambiance/room/ambiance: resolve the
group, send activate_mood once (no fan-out), invalidate the cache once. -/
def selectAmbianceRoom (env : DispatchEnv) (room : String) (ambiance : Nat) :
    List Event × Except PyError String :=
  match env.getGroup room with
  | Except.error e => ([], Except.error (PyError.gateway e))
  | Except.ok _grp =>
    match env.activateMood ambiance with
    | Except.error e =>
      ([Event.cmdActivateMood ambiance], Except.error (PyError.gateway e))
    | Except.ok _ => ([Event.cmdActivateMood ambiance, Event.invalidate], Except.ok "")

/-- A light-capable device used by the concrete scenarios. -/
def lampD1 : Device :=
  { id := "D1", name := "Lamp one", hasLightControl := true, dimmer := 10, state := true }

/-- A second light-capable device. -/
def lampD2 : Device :=
  { id := "D2", name := "Lamp two", hasLightControl := true, dimmer := 20, state := false }

/-- A member without light control. -/
def sensorD3 : Device :=
  { id := "D3", name := "Sensor", hasLightControl := false, dimmer := 0, state := false }

/-- Builder environment for the missing-member scenario: the device index
holds only D1, while room R1 lists members D1 and GHOST. -/
def envGhost : FetchEnv :=
  { devices := [lampD1]
  , groups := [{ id := "R1", name := "Living", memberIds := ["D1", "GHOST"] }]
  , activeMood := fun _ => Except.ok { id := 1, name := "Relax" }
  , moods := fun _ => Except.ok [{ id := 1, name := "Relax" }] }

/-- Dispatcher environment where every gateway call succeeds: room R has
the single light member D1. -/
def envOneLamp : DispatchEnv :=
  { getGroup := fun r =>
      if r = "R" then Except.ok { id := "R", name := "Room R", memberIds := ["D1"] }
      else Except.error { code := 0 }
  , getDevice := fun i =>
      if i = "D1" then Except.ok lampD1 else Except.error { code := 1 }
  , setState := fun _ _ => Except.ok ()
  , setDimmer := fun _ _ => Except.ok ()
  , activateMood := fun _ => Except.ok () }

/-- The room with the two light members D1 and D2. -/
def grpTwoLamps : Room := { id := "R", name := "Room R", memberIds := ["D1", "D2"] }

/-- The room with light member D1 and non-light member D3. -/
def grpMixed : Room := { id := "R", name := "Room R", memberIds := ["D1", "D3"] }

/-- Dispatcher environment where room R has light members D1 and D2, every
resolution succeeds, but the set_state command on D1 fails with gateway
error 7 while commands on D2 would succeed. -/
def envFirstFails : DispatchEnv :=
  { getGroup := fun r =>
      if r = "R" then Except.ok grpTwoLamps
      else Except.error { code := 0 }
  , getDevice := fun i =>
      if i = "D1" then Except.ok lampD1
      else if i = "D2" then Except.ok lampD2
      else Except.error { code := 1 }
  , setState := fun i _ =>
      if i = "D1" then Except.error { code := 7 } else Except.ok ()
  , setDimmer := fun i _ =>
      if i = "D1" then Except.error { code := 7 } else Except.ok ()
  , activateMood := fun _ => Except.ok () }

/-- The room with the two light members listed D2 first, D1 second. -/
def grpTwoLampsRev : Room := { id := "R", name := "Room R", memberIds := ["D2", "D1"] }

/-- Dispatcher environment like envFirstFails but with room R listing D2
before D1: the first member's command succeeds and the second member's
fails, giving a failure in the middle of the fan-out. -/
def envMidFails : DispatchEnv :=
  { getGroup := fun r =>
      if r = "R" then Except.ok grpTwoLampsRev
      else Except.error { code := 0 }
  , getDevice := fun i =>
      if i = "D1" then Except.ok lampD1
      else if i = "D2" then Except.ok lampD2
      else Except.error { code := 1 }
  , setState := fun i _ =>
      if i = "D1" then Except.error { code := 7 } else Except.ok ()
  , setDimmer := fun i _ =>
      if i = "D1" then Except.error { code := 7 } else Except.ok ()
  , activateMood := fun _ => Except.ok () }

/-- Dispatcher environment where room R has a light member D1 and a
non-light member D3, and every command succeeds. -/
def envMixed : DispatchEnv :=
  { getGroup := fun r =>
      if r = "R" then Except.ok grpMixed
      else Except.error { code := 0 }
  , getDevice := fun i =>
      if i = "D1" then Except.ok lampD1
      else if i = "D3" then Except.ok sensorD3
      else Except.error { code := 1 }
  , setState := fun _ _ => Except.ok ()
  , setDimmer := fun _ _ => Except.ok ()
  , activateMood := fun _ => Except.ok () }

/-- The cache cell at process start: both globals are None. -/
def initCache : CacheState := { cachedResponse := none, lastFetch := none }

/-- The cache cell after one successful rebuild at time 0 from the initial
state, caching the empty description. -/
def stateAfterGet : CacheState := (get_description initCache 0 0 (Except.ok [])).state

/-- Every reachable cache cell has an absent value or a present timestamp:
LAST_FETCH is written whenever CACHED_RESPONSE is, and
invalidate_description clears only CACHED_RESPONSE. -/
theorem reachable_stamp {s : CacheState} (hs : Reachable s) :
    s.cachedResponse = none ∨ ∃ t, s.lastFetch = some t := by
  induction hs with
  | init => exact Or.inl rfl
  | get s tc ts f _ ih =>
    unfold get_description
    cases hc : staleCheck s tc with
    | error e => simpa using ih
    | ok b =>
      cases b with
      | false => simpa using ih
      | true =>
        cases f with
        | error e => simpa using ih
        | ok d => exact Or.inr ⟨ts, rfl⟩
  | inv s _ _ => exact Or.inl rfl

/-- C10: in every reachable cache cell, a present cached value comes with a
present fetch timestamp, so the staleness guard of get_description only
ever evaluates the age subtraction with a present timestamp: the
None-timestamp TypeError branch of the short-circuited condition is
unreachable. -/
theorem C10_stale_check_safe (s : CacheState) (hs : Reachable s) :
    (∀ d, s.cachedResponse = some d → ∃ t, s.lastFetch = some t) ∧
    (∀ tc, ∃ b, staleCheck s tc = Except.ok b) := by
  have h := reachable_stamp hs
  constructor
  · intro d hd
    rcases h with h | h
    · rw [hd] at h; cases h
    · exact h
  · intro tc
    unfold staleCheck
    rcases hc : s.cachedResponse with _ | d
    · exact ⟨true, rfl⟩
    · rcases h with h | ⟨t, ht⟩
      · rw [hc] at h; cases h
      · rw [ht]; exact ⟨_, rfl⟩

/-- C10 witness: the theorem applied at the initial (reachable) cell. -/
theorem C10_stale_check_safe_witness :
    Reachable initCache ∧
    ((∀ d, initCache.cachedResponse = some d → ∃ t, initCache.lastFetch = some t) ∧
     (∀ tc, ∃ b, staleCheck initCache tc = Except.ok b)) :=
  ⟨Reachable.init, C10_stale_check_safe initCache Reachable.init⟩

/-- C3: on any reachable cell, get_description invokes fetch_description
exactly when the cached value is absent or strictly more than 10 seconds
passed since the stored fetch timestamp; when it does not, it returns the
cached description with the cell unchanged and its outcome is independent
of the fetch outcome (the gateway is not contacted). -/
theorem C3_ttl_guard (s : CacheState) (tc ts : ℚ) (f : Except PyError Description)
    (hs : Reachable s) :
    ((get_description s tc ts f).builderInvoked = true ↔
      (s.cachedResponse = none ∨ ∃ t, s.lastFetch = some t ∧ tc - t > 10)) ∧
    ((get_description s tc ts f).builderInvoked = false →
      ∃ d, s.cachedResponse = some d ∧
        ∀ g : Except PyError Description,
          get_description s tc ts g =
            { state := s, builderInvoked := false, result := Except.ok (some d) }) := by
  rcases hc : s.cachedResponse with _ | d
  · have hstale : staleCheck s tc = Except.ok true := by
      unfold staleCheck; rw [hc]
    have hinv : (get_description s tc ts f).builderInvoked = true := by
      unfold get_description; rw [hstale]; cases f <;> rfl
    refine ⟨⟨fun _ => Or.inl rfl, fun _ => hinv⟩, fun hfalse => ?_⟩
    rw [hinv] at hfalse; cases hfalse
  · rcases reachable_stamp hs with h | ⟨t, ht⟩
    · rw [hc] at h; cases h
    · have hstale : staleCheck s tc = Except.ok (decide (tc - t > 10)) := by
        unfold staleCheck; rw [hc, ht]
      by_cases hgt : tc - t > 10
      · have hstale1 : staleCheck s tc = Except.ok true := by
          rw [hstale]; simp [hgt]
        have hinv : (get_description s tc ts f).builderInvoked = true := by
          unfold get_description; rw [hstale1]; cases f <;> rfl
        refine ⟨⟨fun _ => Or.inr ⟨t, ht, hgt⟩, fun _ => hinv⟩, fun hfalse => ?_⟩
        rw [hinv] at hfalse; cases hfalse
      · have hstale0 : staleCheck s tc = Except.ok false := by
          rw [hstale]; simp [hgt]
        have hinv : (get_description s tc ts f).builderInvoked = false := by
          unfold get_description; rw [hstale0]
        constructor
        · rw [hinv]
          constructor
          · intro hfalse; cases hfalse
          · rintro (h | ⟨t2, ht2, hgt2⟩)
            · cases h
            · rw [ht] at ht2
              cases ht2
              exact absurd hgt2 hgt
        · intro _
          refine ⟨d, rfl, fun g => ?_⟩
          unfold get_description
          rw [hstale0, hc]

/-- C3 witness: the theorem applied at the initial reachable cell with both
clock readings 0 and a successful fetch of the empty description. -/
theorem C3_ttl_guard_witness :
    Reachable initCache ∧
    (((get_description initCache 0 0 (Except.ok [])).builderInvoked = true ↔
       (initCache.cachedResponse = none ∨
        ∃ t, initCache.lastFetch = some t ∧ (0 : ℚ) - t > 10)) ∧
     ((get_description initCache 0 0 (Except.ok [])).builderInvoked = false →
       ∃ d, initCache.cachedResponse = some d ∧
         ∀ g : Except PyError Description,
           get_description initCache 0 0 g =
             { state := initCache, builderInvoked := false,
               result := Except.ok (some d) })) :=
  ⟨Reachable.init, C3_ttl_guard initCache 0 0 (Except.ok []) Reachable.init⟩

/-- C4: when get_description triggers a rebuild and the fetch fails, the
cache cell -- both CACHED_RESPONSE and LAST_FETCH -- is left exactly as it
was and the failure itself is the call's outcome: the previously cached
value is not returned. -/
theorem C4_failed_rebuild_no_update (s : CacheState) (tc ts : ℚ) (e : PyError)
    (h : (get_description s tc ts (Except.error e)).builderInvoked = true) :
    (get_description s tc ts (Except.error e)).state = s ∧
    (get_description s tc ts (Except.error e)).result = Except.error e := by
  unfold get_description at h ⊢
  cases hc : staleCheck s tc with
  | error e2 => rw [hc] at h; simp at h
  | ok b =>
    cases b with
    | false => rw [hc] at h; simp at h
    | true => exact ⟨rfl, rfl⟩

/-- C4 witness: a failed rebuild from the initial cell with gateway error
code 5 leaves the cell initial and propagates that very error. -/
theorem C4_failed_rebuild_no_update_witness :
    (get_description initCache 0 0
        (Except.error (PyError.gateway { code := 5 }))).builderInvoked = true ∧
    ((get_description initCache 0 0
        (Except.error (PyError.gateway { code := 5 }))).state = initCache ∧
     (get_description initCache 0 0
        (Except.error (PyError.gateway { code := 5 }))).result =
       Except.error (PyError.gateway { code := 5 })) :=
  ⟨rfl, C4_failed_rebuild_no_update initCache 0 0 (PyError.gateway { code := 5 }) rfl⟩

/-- C5: after invalidate_description the cached value is absent, and the
next get_description invokes fetch_description whatever the clock readings
are -- in particular even when the previous entry's TTL had not elapsed. -/
theorem C5_invalidate_forces_rebuild (s : CacheState) (tc ts : ℚ)
    (f : Except PyError Description) :
    (invalidate_description s).cachedResponse = none ∧
    (get_description (invalidate_description s) tc ts f).builderInvoked = true := by
  refine ⟨rfl, ?_⟩
  have hstale : staleCheck (invalidate_description s) tc = Except.ok true := rfl
  unfold get_description
  rw [hstale]
  cases f <;> rfl

/-- C8 counterexample: after a successful rebuild, invalidate_description
yields a reachable cell whose value is absent while its fetch timestamp is
still present, refuting the absent-iff-absent invariant. -/
theorem C8_iff_invariant_broken :
    Reachable (invalidate_description stateAfterGet) ∧
    (stateAfterGet.cachedResponse = none ↔ stateAfterGet.lastFetch = none) ∧
    ¬((invalidate_description stateAfterGet).cachedResponse = none ↔
      (invalidate_description stateAfterGet).lastFetch = none) :=
  ⟨Reachable.inv stateAfterGet
      (Reachable.get initCache 0 0 (Except.ok []) Reachable.init),
   by decide, by decide⟩

/-- C8 (amended): the weaker invariant -- the cached value being present
implies the fetch timestamp being present -- holds in the initial state and
is preserved by every operation; the converse direction is destroyed by
invalidate_description, which clears only CACHED_RESPONSE. -/
theorem C8_value_implies_stamp :
    (initCache.cachedResponse ≠ none → initCache.lastFetch ≠ none) ∧
    ∀ s : CacheState, (s.cachedResponse ≠ none → s.lastFetch ≠ none) →
      (∀ (tc ts : ℚ) (f : Except PyError Description),
        (get_description s tc ts f).state.cachedResponse ≠ none →
        (get_description s tc ts f).state.lastFetch ≠ none) ∧
      ((invalidate_description s).cachedResponse ≠ none →
       (invalidate_description s).lastFetch ≠ none) := by
  constructor
  · intro h; exact absurd rfl h
  · intro s hvs
    constructor
    · intro tc ts f
      unfold get_description
      cases hc : staleCheck s tc with
      | error e => exact hvs
      | ok b =>
        cases b with
        | false => exact hvs
        | true =>
          cases f with
          | error e => exact hvs
          | ok d => intro _; simp
    · intro h; exact absurd rfl h

/-- C8 amended witness: the preservation step applied at the concrete
post-rebuild cell, with clock readings 1 and a successful fetch. -/
theorem C8_value_implies_stamp_witness :
    (stateAfterGet.cachedResponse ≠ none → stateAfterGet.lastFetch ≠ none) ∧
    ((get_description stateAfterGet 1 1 (Except.ok [])).state.cachedResponse ≠ none →
     (get_description stateAfterGet 1 1 (Except.ok [])).state.lastFetch ≠ none) :=
  ⟨by decide,
   (C8_value_implies_stamp.2 stateAfterGet (by decide)).1 1 1 (Except.ok [])⟩

/-- C1: evaluating fetch_description on the concrete missing-member
scenario.  Room R1 lists member GHOST, absent from the device index; the
loop then evaluates has_light_control on the None placeholder produced by
the index lookup and the whole build raises AttributeError instead of
omitting the member. -/
theorem C1_missing_member_crash :
    fetch_description envGhost = Except.error PyError.attributeError := by decide

/-- C9: the room path segment of the device-level routes has no influence:
for any gateway behaviour, any two room segments with the same bulb id
(and dimmer value) give identical event traces and identical results for
the bulb-off, bulb-on and bulb-dimmer routes. -/
theorem C9_room_segment_irrelevant (env : DispatchEnv) (r1 r2 bulb : String)
    (value : Nat) :
    switchOffBulb env r1 bulb = switchOffBulb env r2 bulb ∧
    switchOnBulb env r1 bulb = switchOnBulb env r2 bulb ∧
    setDimmerBulb env r1 bulb value = setDimmerBulb env r2 bulb value :=
  ⟨rfl, rfl, rfl⟩

/-- Shape of a successful bulb-off call: the device resolved with light
control and the trace is exactly its set_state command followed by one
invalidation. -/
theorem switchOffBulb_ok_shape (env : DispatchEnv) (rs i : String)
    (evs : List Event) (o : String)
    (h : switchOffBulb env rs i = (evs, Except.ok o)) :
    ∃ d, env.getDevice i = Except.ok d ∧ d.hasLightControl = true ∧
      evs = [Event.cmdSetState d.id false, Event.invalidate] := by
  unfold switchOffBulb at h
  split at h
  · injection h with h1 h2; cases h2
  · rename_i d heq
    split at h
    · rename_i hlt
      split at h
      · injection h with h1 h2; cases h2
      · injection h with h1 h2
        exact ⟨d, heq, hlt, h1.symm⟩
    · injection h with h1 h2; cases h2

/-- Shape of a successful bulb-on call, symmetric to the off case. -/
theorem switchOnBulb_ok_shape (env : DispatchEnv) (rs i : String)
    (evs : List Event) (o : String)
    (h : switchOnBulb env rs i = (evs, Except.ok o)) :
    ∃ d, env.getDevice i = Except.ok d ∧ d.hasLightControl = true ∧
      evs = [Event.cmdSetState d.id true, Event.invalidate] := by
  unfold switchOnBulb at h
  split at h
  · injection h with h1 h2; cases h2
  · rename_i d heq
    split at h
    · rename_i hlt
      split at h
      · injection h with h1 h2; cases h2
      · injection h with h1 h2
        exact ⟨d, heq, hlt, h1.symm⟩
    · injection h with h1 h2; cases h2

/-- Shape of a successful bulb-dimmer call. -/
theorem setDimmerBulb_ok_shape (env : DispatchEnv) (rs i : String) (v : Nat)
    (evs : List Event) (o : String)
    (h : setDimmerBulb env rs i v = (evs, Except.ok o)) :
    ∃ d, env.getDevice i = Except.ok d ∧ d.hasLightControl = true ∧
      evs = [Event.cmdSetDimmer d.id v, Event.invalidate] := by
  unfold setDimmerBulb at h
  split at h
  · injection h with h1 h2; cases h2
  · rename_i d heq
    split at h
    · rename_i hlt
      split at h
      · injection h with h1 h2; cases h2
      · injection h with h1 h2
        exact ⟨d, heq, hlt, h1.symm⟩
    · injection h with h1 h2; cases h2

/-- Counting lemma for a successful member loop: when every successful op
trace balances invalidations against commands, so does the loop trace. -/
theorem roomLoop_count (env : DispatchEnv)
    (op : String → List Event × Except PyError String)
    (hop : ∀ i evs o, op i = (evs, Except.ok o) →
      evs.countP isInv = evs.countP isCmd) :
    ∀ ids evs, roomLoop env op ids = (evs, Except.ok ()) →
      evs.countP isInv = evs.countP isCmd := by
  intro ids
  induction ids with
  | nil =>
    intro evs h
    injection h with h1 h2
    rw [← h1]
    rfl
  | cons i rest ih =>
    intro evs h
    unfold roomLoop at h
    split at h
    · injection h with h1 h2; cases h2
    · rename_i member heq
      split at h
      · split at h
        · injection h with h1 h2; cases h2
        · rename_i evs0 o0 hop2
          cases hrest : roomLoop env op rest with
          | mk evs2 r2 =>
            rw [hrest] at h
            injection h with h1 h2
            rw [← h1, List.countP_append, List.countP_append,
                hop member.id evs0 o0 hop2, ih evs2 (by rw [hrest, ← h2])]
      · exact ih evs h

/-- C2 counterexample: in the all-success one-lamp environment the
room-off route completes successfully yet runs cache invalidation twice --
once inside the reused bulb handler and once after the loop -- refuting
exactly-once invalidation per dispatcher call. -/
theorem C2_room_off_invalidates_twice :
    (switchOffRoom envOneLamp "R").1 =
      [Event.cmdSetState "D1" false, Event.invalidate, Event.invalidate] ∧
    (switchOffRoom envOneLamp "R").2 = Except.ok "" ∧
    (switchOffRoom envOneLamp "R").1.countP isInv = 2 := by
  refine ⟨?_, ?_, ?_⟩ <;> decide

/-- C2 (amended): on a successful room-level power or dimmer call, cache
invalidation runs once per member command issued (inside the reused
device-level handler) plus exactly once after the loop, the trace's final
event -- 1 + k invalidations for k member commands, not exactly one; the
ambiance route, which has no fan-out, invalidates exactly once. -/
theorem C2_invalidation_per_member (env : DispatchEnv) (room : String) :
    (∀ evs o, switchOffRoom env room = (evs, Except.ok o) →
      evs.countP isInv = 1 + evs.countP isCmd ∧
      ∃ p, evs = p ++ [Event.invalidate]) ∧
    (∀ evs o, switchOnRoom env room = (evs, Except.ok o) →
      evs.countP isInv = 1 + evs.countP isCmd ∧
      ∃ p, evs = p ++ [Event.invalidate]) ∧
    (∀ v evs o, setDimmerRoom env room v = (evs, Except.ok o) →
      evs.countP isInv = 1 + evs.countP isCmd ∧
      ∃ p, evs = p ++ [Event.invalidate]) ∧
    (∀ m evs o, selectAmbianceRoom env room m = (evs, Except.ok o) →
      evs.countP isInv = 1 ∧ evs = [Event.cmdActivateMood m, Event.invalidate]) := by
  have hcount : ∀ (levs : List Event),
      levs.countP isInv = levs.countP isCmd →
      (levs ++ [Event.invalidate]).countP isInv =
        1 + (levs ++ [Event.invalidate]).countP isCmd := by
    intro levs hbal
    have e1 : List.countP isInv [Event.invalidate] = 1 := rfl
    have e2 : List.countP isCmd [Event.invalidate] = 0 := rfl
    rw [List.countP_append, List.countP_append, hbal, e1, e2]
    omega
  refine ⟨?_, ?_, ?_, ?_⟩
  · intro evs o h
    unfold switchOffRoom at h
    split at h
    · injection h with h1 h2; cases h2
    · rename_i grp hg
      split at h
      · injection h with h1 h2; cases h2
      · rename_i levs u hloop
        injection h with h1 h2
        have hbal : levs.countP isInv = levs.countP isCmd := by
          refine roomLoop_count env _ ?_ grp.memberIds levs hloop
          intro i evs1 o1 hb1
          obtain ⟨d, _, _, hevs1⟩ := switchOffBulb_ok_shape env room i evs1 o1 hb1
          rw [hevs1]; rfl
        exact ⟨by rw [← h1]; exact hcount levs hbal, ⟨levs, h1.symm⟩⟩
  · intro evs o h
    unfold switchOnRoom at h
    split at h
    · injection h with h1 h2; cases h2
    · rename_i grp hg
      split at h
      · injection h with h1 h2; cases h2
      · rename_i levs u hloop
        injection h with h1 h2
        have hbal : levs.countP isInv = levs.countP isCmd := by
          refine roomLoop_count env _ ?_ grp.memberIds levs hloop
          intro i evs1 o1 hb1
          obtain ⟨d, _, _, hevs1⟩ := switchOnBulb_ok_shape env room i evs1 o1 hb1
          rw [hevs1]; rfl
        exact ⟨by rw [← h1]; exact hcount levs hbal, ⟨levs, h1.symm⟩⟩
  · intro v evs o h
    unfold setDimmerRoom at h
    split at h
    · injection h with h1 h2; cases h2
    · rename_i grp hg
      split at h
      · injection h with h1 h2; cases h2
      · rename_i levs u hloop
        injection h with h1 h2
        have hbal : levs.countP isInv = levs.countP isCmd := by
          refine roomLoop_count env _ ?_ grp.memberIds levs hloop
          intro i evs1 o1 hb1
          obtain ⟨d, _, _, hevs1⟩ := setDimmerBulb_ok_shape env room i v evs1 o1 hb1
          rw [hevs1]; rfl
        exact ⟨by rw [← h1]; exact hcount levs hbal, ⟨levs, h1.symm⟩⟩
  · intro m evs o h
    unfold selectAmbianceRoom at h
    split at h
    · injection h with h1 h2; cases h2
    · rename_i grp hg
      split at h
      · injection h with h1 h2; cases h2
      · injection h with h1 h2
        exact ⟨by rw [← h1]; rfl, h1.symm⟩

/-- C2 amended, concrete run: in the one-lamp environment the room-off
trace has two invalidations for its one command, the last event being the
post-loop invalidation. -/
theorem C2_invalidation_per_member_witness :
    switchOffRoom envOneLamp "R" =
      ((switchOffRoom envOneLamp "R").1, Except.ok "") ∧
    ((switchOffRoom envOneLamp "R").1.countP isInv =
       1 + (switchOffRoom envOneLamp "R").1.countP isCmd ∧
     ∃ p, (switchOffRoom envOneLamp "R").1 = p ++ [Event.invalidate]) :=
  ⟨by decide,
   (C2_invalidation_per_member envOneLamp "R").1 (switchOffRoom envOneLamp "R").1 ""
     (by decide)⟩

/-- C6 counterexample: with room R holding light members D1 and D2, D1's
set_state failing and D2's succeeding, the room-off route stops after D1's
failed command -- D2 is never commanded, the trailing invalidation is
skipped and the error propagates. -/
theorem C6_member_failure_not_tolerated :
    switchOffRoom envFirstFails "R" =
      ([Event.cmdSetState "D1" false], Except.error (PyError.gateway { code := 7 })) ∧
    Event.cmdSetState "D2" false ∉ (switchOffRoom envFirstFails "R").1 ∧
    Event.invalidate ∉ (switchOffRoom envFirstFails "R").1 ∧
    envFirstFails.setState "D2" false = Except.ok () := by
  refine ⟨?_, ?_, ?_, ?_⟩ <;> decide

/-- Composition of the member loop over a successfully processed prefix:
the loop over pre ++ tail runs the prefix, keeps its trace, and continues
exactly as the loop over tail alone. -/
theorem roomLoop_append_ok (env : DispatchEnv)
    (op : String → List Event × Except PyError String) :
    ∀ pre evsPre, roomLoop env op pre = (evsPre, Except.ok ()) →
    ∀ tail, roomLoop env op (pre ++ tail) =
      (evsPre ++ (roomLoop env op tail).1, (roomLoop env op tail).2) := by
  intro pre
  induction pre with
  | nil =>
    intro evsPre h tail
    injection h with h1 h2
    rw [← h1]
    simp
  | cons j rest ih =>
    intro evsPre h tail
    unfold roomLoop at h
    split at h
    · injection h with h1 h2; cases h2
    · rename_i member heqd
      split at h
      · rename_i hlt
        split at h
        · injection h with h1 h2; cases h2
        · rename_i evs0 o0 hop2
          cases hrest : roomLoop env op rest with
          | mk evs2 r2 =>
            rw [hrest] at h
            injection h with h1 h2
            have hrest2 : roomLoop env op rest = (evs2, Except.ok ()) := by
              rw [hrest, ← h2]
            have hcont := ih evs2 hrest2 tail
            show roomLoop env op (j :: (rest ++ tail)) = _
            simp only [roomLoop, heqd, hlt, if_true, hop2, hcont]
            rw [← h1]
            simp
      · rename_i hlt
        have hcont := ih evsPre h tail
        show roomLoop env op (j :: (rest ++ tail)) = _
        simp only [roomLoop, heqd]
        rw [if_neg hlt]
        exact hcont

/-- C6 (amended): in the room-level power and dimmer fan-outs, a failure of
the device-level command of a light-capable member at any position of the
member list -- after any successfully processed prefix -- aborts the whole
call: whatever the remaining member list holds, the route returns the
prefix trace followed by the failing member's partial trace, propagating
that member's error; no later member is resolved or commanded and the
trailing cache invalidation is skipped. -/
theorem C6_failure_aborts_fanout (env : DispatchEnv) (room : String) (grp : Room)
    (pre : List String) (j : String) (rest : List String) (d : Device)
    (evsPre : List Event) (e : PyError)
    (hg : env.getGroup room = Except.ok grp)
    (hm : grp.memberIds = pre ++ j :: rest)
    (hd : env.getDevice j = Except.ok d)
    (hl : d.hasLightControl = true) :
    (∀ evs0,
      roomLoop env (fun i => switchOffBulb env room i) pre = (evsPre, Except.ok ()) →
      switchOffBulb env room d.id = (evs0, Except.error e) →
      switchOffRoom env room = (evsPre ++ evs0, Except.error e)) ∧
    (∀ evs0,
      roomLoop env (fun i => switchOnBulb env room i) pre = (evsPre, Except.ok ()) →
      switchOnBulb env room d.id = (evs0, Except.error e) →
      switchOnRoom env room = (evsPre ++ evs0, Except.error e)) ∧
    (∀ v evs0,
      roomLoop env (fun i => setDimmerBulb env room i v) pre = (evsPre, Except.ok ()) →
      setDimmerBulb env room d.id v = (evs0, Except.error e) →
      setDimmerRoom env room v = (evsPre ++ evs0, Except.error e)) := by
  refine ⟨?_, ?_, ?_⟩
  · intro evs0 hpre hb
    have hmid : roomLoop env (fun i => switchOffBulb env room i) (j :: rest) =
        (evs0, Except.error e) := by
      simp [roomLoop, hd, hl, hb]
    have hall : roomLoop env (fun i => switchOffBulb env room i) (pre ++ j :: rest) =
        (evsPre ++ evs0, Except.error e) := by
      rw [roomLoop_append_ok env _ pre evsPre hpre (j :: rest), hmid]
    simp [switchOffRoom, hg, hm, hall]
  · intro evs0 hpre hb
    have hmid : roomLoop env (fun i => switchOnBulb env room i) (j :: rest) =
        (evs0, Except.error e) := by
      simp [roomLoop, hd, hl, hb]
    have hall : roomLoop env (fun i => switchOnBulb env room i) (pre ++ j :: rest) =
        (evsPre ++ evs0, Except.error e) := by
      rw [roomLoop_append_ok env _ pre evsPre hpre (j :: rest), hmid]
    simp [switchOnRoom, hg, hm, hall]
  · intro v evs0 hpre hb
    have hmid : roomLoop env (fun i => setDimmerBulb env room i v) (j :: rest) =
        (evs0, Except.error e) := by
      simp [roomLoop, hd, hl, hb]
    have hall : roomLoop env (fun i => setDimmerBulb env room i v) (pre ++ j :: rest) =
        (evsPre ++ evs0, Except.error e) := by
      rw [roomLoop_append_ok env _ pre evsPre hpre (j :: rest), hmid]
    simp [setDimmerRoom, hg, hm, hall]

/-- C6 amended witness: a mid-fan-out failure in the concrete environment
where room R lists the succeeding lamp D2 before the failing lamp D1: the
route keeps D2's trace and per-member invalidation, stops at D1's failed
command and propagates its error without the trailing invalidation. -/
theorem C6_failure_aborts_fanout_witness :
    (envMidFails.getGroup "R" = Except.ok grpTwoLampsRev ∧
     grpTwoLampsRev.memberIds = ["D2"] ++ "D1" :: [] ∧
     envMidFails.getDevice "D1" = Except.ok lampD1 ∧
     lampD1.hasLightControl = true ∧
     roomLoop envMidFails (fun i => switchOffBulb envMidFails "R" i) ["D2"] =
       ([Event.cmdSetState "D2" false, Event.invalidate], Except.ok ()) ∧
     switchOffBulb envMidFails "R" lampD1.id =
       ([Event.cmdSetState "D1" false], Except.error (PyError.gateway { code := 7 }))) ∧
    switchOffRoom envMidFails "R" =
      ([Event.cmdSetState "D2" false, Event.invalidate] ++ [Event.cmdSetState "D1" false],
       Except.error (PyError.gateway { code := 7 })) :=
  ⟨⟨rfl, rfl, rfl, rfl, by decide, by decide⟩,
   (C6_failure_aborts_fanout envMidFails "R" grpTwoLampsRev ["D2"] "D1" [] lampD1
       [Event.cmdSetState "D2" false, Event.invalidate]
       (PyError.gateway { code := 7 }) rfl rfl rfl rfl).1
     [Event.cmdSetState "D1" false] (by decide) (by decide)⟩

/-- Fan-out characterisation of a member loop whose op behaves like a bulb
route and succeeds on every light-capable member: the loop completes with
result ok, its trace holds the op event of every light-capable member,
every trace element is an invalidation or such an event, and with no
light-capable member the trace is empty. -/
theorem roomLoop_fanout (env : DispatchEnv)
    (op : String → List Event × Except PyError String) (mk : String → Event)
    (hid : ∀ i d, env.getDevice i = Except.ok d → d.id = i) :
    ∀ ids : List String,
    (∀ i, i ∈ ids → ∃ d, env.getDevice i = Except.ok d) →
    (∀ i d, i ∈ ids → env.getDevice i = Except.ok d → d.hasLightControl = true →
      op i = ([mk i, Event.invalidate], Except.ok "")) →
    ∃ evs, roomLoop env op ids = (evs, Except.ok ()) ∧
      (∀ i d, i ∈ ids → env.getDevice i = Except.ok d → d.hasLightControl = true →
        mk i ∈ evs) ∧
      (∀ x, x ∈ evs → x = Event.invalidate ∨
        ∃ i d, i ∈ ids ∧ env.getDevice i = Except.ok d ∧
          d.hasLightControl = true ∧ x = mk i) ∧
      ((∀ i d, i ∈ ids → env.getDevice i = Except.ok d →
        d.hasLightControl = false) → evs = []) := by
  intro ids
  induction ids with
  | nil =>
    intro _ _
    refine ⟨[], rfl, ?_, ?_, fun _ => rfl⟩
    · intro i d hi; cases hi
    · intro x hx; cases hx
  | cons j rest ih =>
    intro hres hop
    obtain ⟨d, hd⟩ := hres j (List.mem_cons_self j rest)
    obtain ⟨evs2, hloop2, hmem2, hchar2, hempty2⟩ :=
      ih (fun i hi => hres i (List.mem_cons_of_mem j hi))
        (fun i di hi hdi hli => hop i di (List.mem_cons_of_mem j hi) hdi hli)
    cases hl : d.hasLightControl with
    | false =>
      refine ⟨evs2, ?_, ?_, ?_, ?_⟩
      · simp [roomLoop, hd, hl, hloop2]
      · intro i di hi hdi hli
        rcases List.mem_cons.mp hi with rfl | hi2
        · rw [hd] at hdi
          injection hdi with hdd
          rw [← hdd, hl] at hli
          cases hli
        · exact hmem2 i di hi2 hdi hli
      · intro x hx
        rcases hchar2 x hx with h1 | ⟨i, di, hi, hdi, hli, hxe⟩
        · exact Or.inl h1
        · exact Or.inr ⟨i, di, List.mem_cons_of_mem j hi, hdi, hli, hxe⟩
      · intro hall
        exact hempty2 (fun i di hi hdi => hall i di (List.mem_cons_of_mem j hi) hdi)
    | true =>
      have hopj := hop j d (List.mem_cons_self j rest) hd hl
      have hdid : d.id = j := hid j d hd
      refine ⟨[mk j, Event.invalidate] ++ evs2, ?_, ?_, ?_, ?_⟩
      · simp [roomLoop, hd, hl, hdid, hopj, hloop2]
      · intro i di hi hdi hli
        rcases List.mem_cons.mp hi with rfl | hi2
        · exact List.mem_append_left _ (List.mem_cons_self _ _)
        · exact List.mem_append_right _ (hmem2 i di hi2 hdi hli)
      · intro x hx
        rcases List.mem_append.mp hx with hx1 | hx2
        · rcases List.mem_cons.mp hx1 with rfl | hx1b
          · exact Or.inr ⟨j, d, List.mem_cons_self j rest, hd, hl, rfl⟩
          · rcases List.mem_cons.mp hx1b with rfl | hx1c
            · exact Or.inl rfl
            · cases hx1c
        · rcases hchar2 x hx2 with h1 | ⟨i, di, hi, hdi, hli, hxe⟩
          · exact Or.inl h1
          · exact Or.inr ⟨i, di, List.mem_cons_of_mem j hi, hdi, hli, hxe⟩
      · intro hall
        have hfalse := hall j d (List.mem_cons_self j rest) hd
        rw [hl] at hfalse
        cases hfalse

/-- C7: with every member resolvable and the power command succeeding on
the light-capable members, the room power routes succeed, a member's
set_state event appears in the trace exactly when the member has light
control, and a room with no light-capable member issues no gateway command
while still invalidating the cache: its trace is the single invalidation. -/
theorem C7_room_power_scope (env : DispatchEnv) (room : String) (grp : Room)
    (hid : ∀ i d, env.getDevice i = Except.ok d → d.id = i)
    (hg : env.getGroup room = Except.ok grp)
    (hres : ∀ i, i ∈ grp.memberIds → ∃ d, env.getDevice i = Except.ok d)
    (hoff : ∀ i d, i ∈ grp.memberIds → env.getDevice i = Except.ok d →
      d.hasLightControl = true → env.setState i false = Except.ok ())
    (hon : ∀ i d, i ∈ grp.memberIds → env.getDevice i = Except.ok d →
      d.hasLightControl = true → env.setState i true = Except.ok ()) :
    (∃ evs, switchOffRoom env room = (evs, Except.ok "") ∧
      (∀ i d, i ∈ grp.memberIds → env.getDevice i = Except.ok d →
        (d.hasLightControl = true ↔ Event.cmdSetState i false ∈ evs)) ∧
      ((∀ i d, i ∈ grp.memberIds → env.getDevice i = Except.ok d →
        d.hasLightControl = false) → evs = [Event.invalidate])) ∧
    (∃ evs, switchOnRoom env room = (evs, Except.ok "") ∧
      (∀ i d, i ∈ grp.memberIds → env.getDevice i = Except.ok d →
        (d.hasLightControl = true ↔ Event.cmdSetState i true ∈ evs)) ∧
      ((∀ i d, i ∈ grp.memberIds → env.getDevice i = Except.ok d →
        d.hasLightControl = false) → evs = [Event.invalidate])) := by
  constructor
  · have hopspec : ∀ i d, i ∈ grp.memberIds → env.getDevice i = Except.ok d →
        d.hasLightControl = true →
        (fun i => switchOffBulb env room i) i =
          ([Event.cmdSetState i false, Event.invalidate], Except.ok "") := by
      intro i d hi hdi hli
      have hdid : d.id = i := hid i d hdi
      have hset := hoff i d hi hdi hli
      simp [switchOffBulb, hdi, hli, hdid, hset]
    obtain ⟨levs, hloop, hmem, hchar, hempty⟩ :=
      roomLoop_fanout env (fun i => switchOffBulb env room i)
        (fun i => Event.cmdSetState i false) hid grp.memberIds hres hopspec
    refine ⟨levs ++ [Event.invalidate], ?_, ?_, ?_⟩
    · simp [switchOffRoom, hg, hloop]
    · intro i d hi hdi
      constructor
      · intro hli
        exact List.mem_append_left _ (hmem i d hi hdi hli)
      · intro hin
        rcases List.mem_append.mp hin with hin1 | hin2
        · rcases hchar _ hin1 with h1 | ⟨i2, d2, hi2, hdi2, hli2, hxe⟩
          · cases h1
          · injection hxe with hii hff
            rw [← hii] at hdi2
            rw [hdi] at hdi2
            injection hdi2 with hdd
            rw [hdd]
            exact hli2
        · rcases List.mem_cons.mp hin2 with h1 | h1
          · cases h1
          · cases h1
    · intro hall
      rw [hempty hall]
      rfl
  · have hopspec : ∀ i d, i ∈ grp.memberIds → env.getDevice i = Except.ok d →
        d.hasLightControl = true →
        (fun i => switchOnBulb env room i) i =
          ([Event.cmdSetState i true, Event.invalidate], Except.ok "") := by
      intro i d hi hdi hli
      have hdid : d.id = i := hid i d hdi
      have hset := hon i d hi hdi hli
      simp [switchOnBulb, hdi, hli, hdid, hset]
    obtain ⟨levs, hloop, hmem, hchar, hempty⟩ :=
      roomLoop_fanout env (fun i => switchOnBulb env room i)
        (fun i => Event.cmdSetState i true) hid grp.memberIds hres hopspec
    refine ⟨levs ++ [Event.invalidate], ?_, ?_, ?_⟩
    · simp [switchOnRoom, hg, hloop]
    · intro i d hi hdi
      constructor
      · intro hli
        exact List.mem_append_left _ (hmem i d hi hdi hli)
      · intro hin
        rcases List.mem_append.mp hin with hin1 | hin2
        · rcases hchar _ hin1 with h1 | ⟨i2, d2, hi2, hdi2, hli2, hxe⟩
          · cases h1
          · injection hxe with hii hff
            rw [← hii] at hdi2
            rw [hdi] at hdi2
            injection hdi2 with hdd
            rw [hdd]
            exact hli2
        · rcases List.mem_cons.mp hin2 with h1 | h1
          · cases h1
          · cases h1
    · intro hall
      rw [hempty hall]
      rfl

/-- C7 witness: the theorem applied to the concrete mixed room -- light
member D1, non-light member D3 -- with every command succeeding. -/
theorem C7_room_power_scope_witness :
    (∀ i d, envMixed.getDevice i = Except.ok d → d.id = i) ∧
    envMixed.getGroup "R" = Except.ok grpMixed ∧
    (∀ i, i ∈ grpMixed.memberIds → ∃ d, envMixed.getDevice i = Except.ok d) ∧
    (∀ i d, i ∈ grpMixed.memberIds → envMixed.getDevice i = Except.ok d →
      d.hasLightControl = true → envMixed.setState i false = Except.ok ()) ∧
    (∀ i d, i ∈ grpMixed.memberIds → envMixed.getDevice i = Except.ok d →
      d.hasLightControl = true → envMixed.setState i true = Except.ok ()) ∧
    ((∃ evs, switchOffRoom envMixed "R" = (evs, Except.ok "") ∧
      (∀ i d, i ∈ grpMixed.memberIds → envMixed.getDevice i = Except.ok d →
        (d.hasLightControl = true ↔ Event.cmdSetState i false ∈ evs)) ∧
      ((∀ i d, i ∈ grpMixed.memberIds → envMixed.getDevice i = Except.ok d →
        d.hasLightControl = false) → evs = [Event.invalidate])) ∧
    (∃ evs, switchOnRoom envMixed "R" = (evs, Except.ok "") ∧
      (∀ i d, i ∈ grpMixed.memberIds → envMixed.getDevice i = Except.ok d →
        (d.hasLightControl = true ↔ Event.cmdSetState i true ∈ evs)) ∧
      ((∀ i d, i ∈ grpMixed.memberIds → envMixed.getDevice i = Except.ok d →
        d.hasLightControl = false) → evs = [Event.invalidate]))) := by
  have pid : ∀ i d, envMixed.getDevice i = Except.ok d → d.id = i := by
    intro i d h
    simp only [envMixed] at h
    split_ifs at h with h1 h2
    · cases h; rw [h1]; rfl
    · cases h; rw [h2]; rfl
  have pres : ∀ i, i ∈ grpMixed.memberIds → ∃ d, envMixed.getDevice i = Except.ok d := by
    intro i hi
    rcases List.mem_cons.mp hi with rfl | hi2
    · exact ⟨lampD1, rfl⟩
    · rcases List.mem_cons.mp hi2 with rfl | hi3
      · exact ⟨sensorD3, rfl⟩
      · cases hi3
  exact ⟨pid, rfl, pres, fun _ _ _ _ _ => rfl, fun _ _ _ _ _ => rfl,
    C7_room_power_scope envMixed "R" grpMixed pid rfl pres
      (fun _ _ _ _ _ => rfl) (fun _ _ _ _ _ => rfl)⟩

end Tradfri
